import Mathlib

/-!
Shallow embedding of the Rinu real-time streaming session controller
(src/unnamed/part_000, with the enums of src/unnamed/part_001).

The embedding models the session-core parts of the React component as pure
functions over an explicit `SessionState` record:

* the PCM helpers `createBlob` (part_000:49-59) and `decodeAudioData`
  (part_000:19-36), modelled over exact rationals — multiplication and
  division by the power of two 32768 are exact on binary floating point,
  and the integer truncation/wrapping of the JavaScript `Int16Array`
  element conversion is modelled bit-exactly;
* the `onmessage` playback-scheduling handler (part_000:487-524);
* `stopSession` (part_000:364-403) together with `stopScreenShare`
  (part_000:347-362);
* `startSession` (part_000:405-542) restricted to its synchronous effects,
  parameterised by the environment outcome (missing API key, a throwing
  connect/setup call, or success);
* `handleToggleCall` (part_000:544-550).

Mutable refs of the component become fields of `SessionState`; `some ()`
stands for a live resource held by a ref and `none` for a null ref.  Calls
to `source.stop()` are recorded by moving the source into the
`stoppedSources` log, so that "every active source was force-stopped" is
expressible.  Wall-clock readings (`ctx.currentTime`) enter the handler as
an explicit `now` argument, and the id of a freshly created buffer source
as an explicit `freshId` argument.
-/

namespace Rinu

/-- Connection lifecycle states (src/unnamed/part_001:7-12). -/
inductive ConnectionState where
  | DISCONNECTED
  | CONNECTING
  | CONNECTED
  | ERROR
deriving DecidableEq, Repr

/-- Truncation toward zero, the integer step of the ECMAScript number → int
conversion used when a float is stored into an `Int16Array` element. -/
def jsTrunc (q : ℚ) : ℤ := if 0 ≤ q then ⌊q⌋ else ⌈q⌉

/-- Wrapping of an integer into the signed 16-bit range, the modular step of
ECMAScript `ToInt16`: the value is reduced mod 2^16 and reinterpreted as a
two's-complement 16-bit integer.  Note: wrapping, not clipping. -/
def wrap16 (n : ℤ) : ℤ :=
  if 32768 ≤ n % 65536 then n % 65536 - 65536 else n % 65536

/-- ECMAScript `ToInt16` on a rational sample value. -/
def toInt16 (q : ℚ) : ℤ := wrap16 (jsTrunc q)

/-- The sample conversion of `createBlob` (part_000:49-54):
`int16[i] = data[i] * 32768`, stored into an `Int16Array`. -/
def createBlobSamples (data : List ℚ) : List ℤ :=
  data.map (fun x => toInt16 (x * 32768))

/-- Little-endian serialisation of an `Int16Array` backing buffer into bytes,
as `new Uint8Array(int16.buffer)` views it (part_000:56). -/
def int16ToBytes : List ℤ → List ℕ
  | [] => []
  | n :: rest => (n % 65536).toNat % 256 :: (n % 65536).toNat / 256 :: int16ToBytes rest

/-- The byte payload produced by `createBlob` (part_000:49-59); the base64
transport coding (`encode`/`decode`, part_000:8-16 and 39-46) is a bijection
on byte strings and is elided. -/
def createBlobBytes (data : List ℚ) : List ℕ :=
  int16ToBytes (createBlobSamples data)

/-- Reading a byte buffer as an `Int16Array` (part_000:25): little-endian
pairs, two's complement.  Returns `none` when the byte length is odd, in
which case the `Int16Array` constructor throws a `RangeError` — the decode
failure mode of the inbound path. -/
def bytesToInt16 : List ℕ → Option (List ℤ)
  | [] => some []
  | [_] => none
  | lo :: hi :: rest => (bytesToInt16 rest).map (fun l => wrap16 ((lo + 256 * hi : ℕ) : ℤ) :: l)

/-- `decodeAudioData` (part_000:19-36) with `numChannels = 1`: each 16-bit
sample is normalised by `dataInt16[i] / 32768.0`. -/
def decodeAudioData (bytes : List ℕ) : Option (List ℚ) :=
  (bytesToInt16 bytes).map (fun l => l.map (fun n : ℤ => (n : ℚ) / 32768))

/-- `AudioBuffer.duration` of a decoded mono buffer created by
`ctx.createBuffer(1, frameCount, 24000)` (part_000:27, 500): seconds. -/
def bufferDuration (samples : List ℚ) : ℚ := (samples.length : ℚ) / 24000

/-- A scheduled `AudioBufferSourceNode`: identity, assigned absolute start
time (argument of `source.start`, part_000:509) and buffer duration. -/
structure PlaybackSource where
  id : ℕ
  startTime : ℚ
  duration : ℚ
deriving DecidableEq, Repr

/-- The camera/microphone MediaStream held by `streamRef`: the enabled flag
of its video track (toggled by screen share, part_000:333/355) and the
stopped flags of its tracks. -/
structure Camera where
  videoTrackEnabled : Bool
  videoTrackStopped : Bool
  audioTrackStopped : Bool
deriving DecidableEq, Repr

/-- The component's session-relevant mutable state: React state plus the
refs (part_000:110-149).  `Option Unit` fields model nullable resource
refs; `stoppedSources` logs every source on which `stop()` was called. -/
structure SessionState where
  connectionState : ConnectionState
  errorMsg : Option String
  isAiTalking : Bool
  isScreenSharing : Bool
  frameInterval : Option Unit
  processor : Option Unit
  inputSource : Option Unit
  inputAudioContext : Option Unit
  outputAudioContext : Option Unit
  sessionPromise : Option Unit
  nextStartTime : ℚ
  sources : List PlaybackSource
  stoppedSources : List PlaybackSource
  cameraStream : Option Camera
  screenStream : Option Unit
  pipActive : Bool
deriving DecidableEq, Repr

/-- An inbound server message as seen by `onmessage` (part_000:487-524):
the inline audio bytes after base64 decoding, if any (an absent or empty
`base64Audio` string is `none` — both fail the `if (base64Audio …)` guard),
and the `interrupted` flag. -/
structure ServerMessage where
  audioData : Option (List ℕ)
  interrupted : Bool
deriving DecidableEq, Repr

/-- `stopScreenShare` (part_000:347-362): stop and drop the screen stream,
re-enable the camera's video track, clear the flag. -/
def stopScreenShare (s : SessionState) : SessionState :=
  let s1 := { s with screenStream := none }
  let s2 :=
    match s1.cameraStream with
    | some cam => { s1 with cameraStream := some { cam with videoTrackEnabled := true } }
    | none => s1
  { s2 with isScreenSharing := false }

/-- `stopSession` (part_000:364-403): clear the frame timer, disconnect and
drop the audio nodes and contexts, stop and clear all scheduled sources,
reset the cursor, drop the session promise, go to DISCONNECTED, clear the
talking flag, stop screen share if active, exit picture-in-picture if
active.  Every step is guarded by a null check in the source, so resetting
an already-reset field is the identity. -/
def stopSession (s : SessionState) : SessionState :=
  let s1 := { s with
    frameInterval := none
    processor := none
    inputSource := none
    inputAudioContext := none
    outputAudioContext := none
    stoppedSources := s.stoppedSources ++ s.sources
    sources := []
    nextStartTime := 0
    sessionPromise := none
    connectionState := ConnectionState.DISCONNECTED
    isAiTalking := false }
  let s2 := if s1.isScreenSharing then stopScreenShare s1 else s1
  if s2.pipActive then { s2 with pipActive := false } else s2

/-- The `onmessage` handler (part_000:487-524).  `now` is the value of
`ctx.currentTime` read at part_000:494; `freshId` identifies the buffer
source created at part_000:503.  The audio branch runs first: it requires a
live output context, sets the (cosmetic, timer-decayed) talking flag,
pre-advances the cursor to `max(cursor, now)`, and on a successful decode
starts a source at the cursor, advances the cursor by the buffer duration
and adds the source to the active set; a decode failure is caught and the
payload dropped.  The interruption branch then stops and clears every
active source and zeroes the cursor. -/
def handleMessage (now : ℚ) (freshId : ℕ) (msg : ServerMessage) (s : SessionState) :
    SessionState :=
  let s1 :=
    match msg.audioData with
    | some bytes =>
      if s.outputAudioContext.isSome then
        let sa := { s with isAiTalking := true, nextStartTime := max s.nextStartTime now }
        match decodeAudioData bytes with
        | some samples =>
          { sa with
            nextStartTime := sa.nextStartTime + bufferDuration samples
            sources := sa.sources ++
              [{ id := freshId, startTime := sa.nextStartTime,
                 duration := bufferDuration samples }] }
        | none => sa
      else s
    | none => s
  if msg.interrupted then
    { s1 with
      stoppedSources := s1.stoppedSources ++ s1.sources
      sources := []
      nextStartTime := 0
      isAiTalking := false }
  else s1

/-- A sequence of `onmessage` invocations: each step carries the clock
reading, the fresh source id and the message. -/
def runMessages (steps : List (ℚ × ℕ × ServerMessage)) (s : SessionState) : SessionState :=
  steps.foldl (fun st p => handleMessage p.1 p.2.1 p.2.2 st) s

/-- The synchronous environment outcome of a `startSession` call:
the missing-API-key early return (part_000:406-409), a throwing
connect/setup call caught at part_000:537-541, or success. -/
inductive StartOutcome where
  | noApiKey
  | connectThrows
  | ok
deriving DecidableEq, Repr

/-- `startSession` (part_000:405-542), synchronous effects only, returning
the resulting state together with the trace of `connectionState` values set
during the call.  With no API key the function sets the error message and
returns before touching any other state.  Otherwise it enters CONNECTING,
clears the error message and allocates the two audio contexts; on success
it stores the session promise, and when the connect/setup call throws, the
catch block sets ERROR and a retryable message and runs `stopSession`. -/
def startSession (env : StartOutcome) (s : SessionState) :
    SessionState × List ConnectionState :=
  match env with
  | StartOutcome.noApiKey => ({ s with errorMsg := some "API_KEY_MISSING" }, [])
  | env =>
    let s1 := { s with
      connectionState := ConnectionState.CONNECTING
      errorMsg := none
      inputAudioContext := some ()
      outputAudioContext := some () }
    match env with
    | StartOutcome.connectThrows =>
      let s2 := { s1 with
        connectionState := ConnectionState.ERROR
        errorMsg := some "CONNECTION_FAILED_RETRY" }
      let s3 := stopSession s2
      (s3, [s1.connectionState, s2.connectionState, s3.connectionState])
    | _ =>
      ({ s1 with sessionPromise := some () }, [s1.connectionState])

/-- `handleToggleCall` (part_000:544-550): stop when CONNECTED or
CONNECTING, otherwise start. -/
def handleToggleCall (env : StartOutcome) (s : SessionState) : SessionState :=
  if s.connectionState = ConnectionState.CONNECTED ∨
     s.connectionState = ConnectionState.CONNECTING then
    stopSession s
  else
    (startSession env s).1

/-- A representative idle state (all session resources absent) used by
concrete witnesses and counterexamples. -/
def idleState : SessionState where
  connectionState := ConnectionState.DISCONNECTED
  errorMsg := none
  isAiTalking := false
  isScreenSharing := false
  frameInterval := none
  processor := none
  inputSource := none
  inputAudioContext := none
  outputAudioContext := none
  sessionPromise := none
  nextStartTime := 0
  sources := []
  stoppedSources := []
  cameraStream := some { videoTrackEnabled := true, videoTrackStopped := false,
                         audioTrackStopped := false }
  screenStream := none
  pipActive := false

/-- A representative mid-call session state used by concrete witnesses and
counterexamples. -/
def liveState : SessionState where
  connectionState := ConnectionState.CONNECTED
  errorMsg := none
  isAiTalking := false
  isScreenSharing := false
  frameInterval := some ()
  processor := some ()
  inputSource := some ()
  inputAudioContext := some ()
  outputAudioContext := some ()
  sessionPromise := some ()
  nextStartTime := 0
  sources := []
  stoppedSources := []
  cameraStream := some { videoTrackEnabled := true, videoTrackStopped := false,
                         audioTrackStopped := false }
  screenStream := none
  pipActive := false

/-- `liveState` with one source already playing (id 7, start 0, duration 1 s). -/
def liveStateWithSource : SessionState :=
  { liveState with sources := [{ id := 7, startTime := 0, duration := 1 }] }

/-! ## Helper lemmas about the handler branches -/

/-- A decoded buffer's duration is non-negative. -/
theorem bufferDuration_nonneg (l : List ℚ) : 0 ≤ bufferDuration l := by
  simp only [bufferDuration]
  positivity

/-- Branch equation: audio payload, successful decode, no interruption. -/
theorem handleMessage_audio_ok (now : ℚ) (i : ℕ) (b : List ℕ) (l : List ℚ)
    (s : SessionState) (hctx : s.outputAudioContext = some ())
    (hdec : decodeAudioData b = some l) :
    handleMessage now i { audioData := some b, interrupted := false } s =
      { s with
        isAiTalking := true
        nextStartTime := max s.nextStartTime now + bufferDuration l
        sources := s.sources ++
          [{ id := i, startTime := max s.nextStartTime now, duration := bufferDuration l }] } := by
  simp [handleMessage, hctx, hdec]

/-- Branch equation: audio payload whose decode fails, no interruption. -/
theorem handleMessage_audio_fail (now : ℚ) (i : ℕ) (b : List ℕ)
    (s : SessionState) (hctx : s.outputAudioContext = some ())
    (hdec : decodeAudioData b = none) :
    handleMessage now i { audioData := some b, interrupted := false } s =
      { s with isAiTalking := true, nextStartTime := max s.nextStartTime now } := by
  simp [handleMessage, hctx, hdec]

/-- Branch equation: message without audio and without interruption is inert. -/
theorem handleMessage_none (now : ℚ) (i : ℕ) (s : SessionState) :
    handleMessage now i { audioData := none, interrupted := false } s = s := by
  simp [handleMessage]

/-- Branch equation: interruption without audio. -/
theorem handleMessage_interrupted_none (now : ℚ) (i : ℕ) (s : SessionState) :
    handleMessage now i { audioData := none, interrupted := true } s =
      { s with isAiTalking := false, nextStartTime := 0, sources := [],
               stoppedSources := s.stoppedSources ++ s.sources } := by
  simp [handleMessage]

/-- Branch equation: interruption accompanied by audio whose decode fails. -/
theorem handleMessage_interrupted_fail (now : ℚ) (i : ℕ) (b : List ℕ)
    (s : SessionState) (hctx : s.outputAudioContext = some ())
    (hdec : decodeAudioData b = none) :
    handleMessage now i { audioData := some b, interrupted := true } s =
      { s with isAiTalking := false, nextStartTime := 0, sources := [],
               stoppedSources := s.stoppedSources ++ s.sources } := by
  simp [handleMessage, hctx, hdec]

/-- Branch equation: interruption accompanied by audio that decodes: the
freshly scheduled source is itself stopped and removed again. -/
theorem handleMessage_interrupted_ok (now : ℚ) (i : ℕ) (b : List ℕ) (l : List ℚ)
    (s : SessionState) (hctx : s.outputAudioContext = some ())
    (hdec : decodeAudioData b = some l) :
    handleMessage now i { audioData := some b, interrupted := true } s =
      { s with isAiTalking := false, nextStartTime := 0, sources := [],
               stoppedSources := s.stoppedSources ++ (s.sources ++
                 [{ id := i, startTime := max s.nextStartTime now,
                    duration := bufferDuration l }]) } := by
  simp [handleMessage, hctx, hdec]

/-- Branch equation: interruption accompanied by audio while the output
context is absent. -/
theorem handleMessage_interrupted_noctx (now : ℚ) (i : ℕ) (b : List ℕ)
    (s : SessionState) (hctx : s.outputAudioContext = none) :
    handleMessage now i { audioData := some b, interrupted := true } s =
      { s with isAiTalking := false, nextStartTime := 0, sources := [],
               stoppedSources := s.stoppedSources ++ s.sources } := by
  simp [handleMessage, hctx]

/-! ## C3 — stopSession is idempotent -/

/-- C3.  `stopSession` is idempotent: a second call in immediate succession
changes nothing (every teardown step in part_000:364-403 is null-guarded, so
it tolerates the resource already being absent, and the model function is
total — no step can fail), and the end state after one call is already
DISCONNECTED with an empty active set, a zero cursor and every
session-owned capture/playback resource reference null. -/
theorem stopSession_idempotent (s : SessionState) :
    stopSession (stopSession s) = stopSession s ∧
    (stopSession s).connectionState = ConnectionState.DISCONNECTED ∧
    (stopSession s).sources = [] ∧
    (stopSession s).nextStartTime = 0 ∧
    (stopSession s).frameInterval = none ∧
    (stopSession s).processor = none ∧
    (stopSession s).inputSource = none ∧
    (stopSession s).inputAudioContext = none ∧
    (stopSession s).outputAudioContext = none ∧
    (stopSession s).sessionPromise = none := by
  cases hss : s.isScreenSharing <;> cases hpip : s.pipActive <;>
    cases hcam : s.cameraStream <;>
    simp [stopSession, stopScreenShare, hss, hpip, hcam]

/-! ## C9 — the timeline cursor is monotone except on explicit resets -/

/-- C9.  Across every `onmessage` invocation that is not an interruption the
cursor `nextStartTimeRef` never decreases (each scheduling step maps it to
`max(cursor, now)` or `max(cursor, now) + duration`); the two explicit
resets — an `Interrupted` message and `stopSession` — set it to 0. -/
theorem cursor_monotone_except_resets (now : ℚ) (i : ℕ) (msg : ServerMessage)
    (s : SessionState) :
    (msg.interrupted = false →
      s.nextStartTime ≤ (handleMessage now i msg s).nextStartTime) ∧
    (msg.interrupted = true → (handleMessage now i msg s).nextStartTime = 0) ∧
    (stopSession s).nextStartTime = 0 := by
  obtain ⟨a, inter⟩ := msg
  refine ⟨?_, ?_, ?_⟩
  · intro h
    subst h
    cases a with
    | none => simp [handleMessage]
    | some b =>
      cases hctx : s.outputAudioContext.isSome <;>
        simp only [handleMessage, hctx] <;> simp
      cases hdec : decodeAudioData b with
      | none => simp [hdec]
      | some l =>
        simp only [hdec]
        have h1 : s.nextStartTime ≤ max s.nextStartTime now := le_max_left _ _
        have h2 : 0 ≤ bufferDuration l := bufferDuration_nonneg l
        linarith
  · intro h
    subst h
    cases a <;> simp only [handleMessage] <;> simp
  · cases hss : s.isScreenSharing <;> cases hpip : s.pipActive <;>
      cases hcam : s.cameraStream <;>
      simp [stopSession, stopScreenShare, hss, hpip, hcam]

/-- C9 witness: at a concrete state, a non-interrupting message does not
decrease the cursor and an interrupting one zeroes it. -/
theorem cursor_monotone_except_resets_witness :
    liveState.nextStartTime ≤
      (handleMessage 1 0 { audioData := none, interrupted := false } liveState).nextStartTime ∧
    (handleMessage 1 0 { audioData := none, interrupted := true } liveState).nextStartTime = 0 := by
  constructor
  · exact (cursor_monotone_except_resets 1 0
      { audioData := none, interrupted := false } liveState).1 rfl
  · exact (cursor_monotone_except_resets 1 0
      { audioData := none, interrupted := true } liveState).2.1 rfl

/-! ## C5 — the start guard -/

/-- C5 counterexample: the claim says `startSession` is a no-op (changing no
session state, allocating no resources) whenever the connection state is not
DISCONNECTED.  In the ERROR state with an API key present, `startSession`
(part_000:405-542) runs unguarded: it moves the state to CONNECTING and
allocates both audio contexts; moreover `handleToggleCall` (part_000:544-550)
reaches `startSession` from ERROR, since its guard only covers CONNECTED and
CONNECTING. -/
theorem startSession_not_noop_outside_disconnected :
    (startSession StartOutcome.ok
        { idleState with connectionState := ConnectionState.ERROR }).1.connectionState =
      ConnectionState.CONNECTING ∧
    (startSession StartOutcome.ok
        { idleState with connectionState := ConnectionState.ERROR }).1.inputAudioContext =
      some () ∧
    handleToggleCall StartOutcome.ok
        { idleState with connectionState := ConnectionState.ERROR } ≠
      { idleState with connectionState := ConnectionState.ERROR } := by
  refine ⟨rfl, rfl, ?_⟩
  decide

/-- C5 amended: the start guard lives at the call site, not in
`startSession`.  `handleToggleCall` stops the session when the state is
CONNECTED or CONNECTING and otherwise — that is, from DISCONNECTED *or*
ERROR — invokes `startSession`, which itself performs no connection-state
check. -/
theorem start_guard_at_toggle (env : StartOutcome) (s : SessionState) :
    (s.connectionState = ConnectionState.CONNECTED ∨
       s.connectionState = ConnectionState.CONNECTING →
      handleToggleCall env s = stopSession s) ∧
    (s.connectionState = ConnectionState.DISCONNECTED ∨
       s.connectionState = ConnectionState.ERROR →
      handleToggleCall env s = (startSession env s).1) := by
  constructor
  · intro h
    simp [handleToggleCall, h]
  · intro h
    rcases h with h | h <;> simp [handleToggleCall, h]

/-- C5 amended witness: concrete instances of both toggle branches. -/
theorem start_guard_at_toggle_witness :
    handleToggleCall StartOutcome.ok liveState = stopSession liveState ∧
    handleToggleCall StartOutcome.ok idleState = (startSession StartOutcome.ok idleState).1 := by
  constructor
  · exact (start_guard_at_toggle StartOutcome.ok liveState).1 (Or.inl rfl)
  · exact (start_guard_at_toggle StartOutcome.ok idleState).2 (Or.inl rfl)

/-! ## C6 — what teardown actually releases -/

/-- C6 counterexample: the claim says that after `stopSession` no capture
device remains active — the camera/microphone tracks report
disabled/stopped.  `stopSession` (part_000:364-403) never touches
`streamRef`: starting from a live call, the camera stream's video track is
still enabled and none of its tracks are stopped after teardown. -/
theorem stopSession_leaves_camera_live :
    (stopSession liveState).cameraStream =
      some { videoTrackEnabled := true, videoTrackStopped := false,
             audioTrackStopped := false } := by
  decide

/-- C6 amended: after `stopSession`, no capture *processing* remains active —
the frame timer is cancelled, the audio processing nodes and both audio
contexts are released, the screen-share stream (when one was active) is
stopped and dropped — and no playback source remains in the active set; the
camera/microphone stream itself stays live: its tracks' stopped flags are
untouched (the stream is owned by the camera lifecycle, part_000:278-312,
not by the session). -/
theorem stopSession_teardown_effects (s : SessionState) :
    (stopSession s).sources = [] ∧
    (stopSession s).frameInterval = none ∧
    (stopSession s).processor = none ∧
    (stopSession s).inputSource = none ∧
    (stopSession s).inputAudioContext = none ∧
    (stopSession s).outputAudioContext = none ∧
    (s.isScreenSharing = true → (stopSession s).screenStream = none) ∧
    (s.screenStream = none → (stopSession s).screenStream = none) ∧
    (stopSession s).cameraStream.map Camera.videoTrackStopped =
      s.cameraStream.map Camera.videoTrackStopped ∧
    (stopSession s).cameraStream.map Camera.audioTrackStopped =
      s.cameraStream.map Camera.audioTrackStopped := by
  cases hss : s.isScreenSharing <;> cases hpip : s.pipActive <;>
    cases hcam : s.cameraStream <;>
    simp [stopSession, stopScreenShare, hss, hpip, hcam]

/-- C6 amended witness: concrete teardown of a live screen-sharing call. -/
theorem stopSession_teardown_effects_witness :
    (stopSession { liveState with isScreenSharing := true,
                                  screenStream := some () }).sources = [] ∧
    (stopSession { liveState with isScreenSharing := true,
                                  screenStream := some () }).screenStream = none := by
  refine ⟨(stopSession_teardown_effects _).1, ?_⟩
  exact (stopSession_teardown_effects
    { liveState with isScreenSharing := true, screenStream := some () }).2.2.2.2.2.2.1 rfl

/-! ## C7 — transport-open failure paths -/

/-- C7 counterexample: the claim says a missing credential transitions the
session to ERROR and performs the full teardown.  The missing-API-key guard
(part_000:406-409) returns before any state transition: starting from the
idle state, `startSession` with no API key sets the error message and
leaves the connection state DISCONNECTED — ERROR is never entered (the
trace of states set during the call is empty). -/
theorem missing_key_no_error_transition :
    (startSession StartOutcome.noApiKey idleState).1.connectionState =
      ConnectionState.DISCONNECTED ∧
    (startSession StartOutcome.noApiKey idleState).1.connectionState ≠
      ConnectionState.ERROR ∧
    (startSession StartOutcome.noApiKey idleState).2 = [] ∧
    (startSession StartOutcome.noApiKey idleState).1.errorMsg = some "API_KEY_MISSING" := by
  refine ⟨rfl, ?_, rfl, rfl⟩
  decide

/-- C7 amended: the two failure paths of `startSession`.  A missing API key
surfaces `API_KEY_MISSING` and returns with every other field of the state
unchanged — no CONNECTING, no ERROR, no teardown.  A thrown connect/setup
call (caught at part_000:537-541) surfaces `CONNECTION_FAILED_RETRY`,
passes through CONNECTING and ERROR, and runs the full teardown, ending in
DISCONNECTED rather than a stuck ERROR state. -/
theorem startSession_failure_paths (s : SessionState) :
    (startSession StartOutcome.noApiKey s).1 =
      { s with errorMsg := some "API_KEY_MISSING" } ∧
    (startSession StartOutcome.noApiKey s).2 = [] ∧
    (startSession StartOutcome.connectThrows s).2 =
      [ConnectionState.CONNECTING, ConnectionState.ERROR, ConnectionState.DISCONNECTED] ∧
    (startSession StartOutcome.connectThrows s).1.connectionState =
      ConnectionState.DISCONNECTED ∧
    (startSession StartOutcome.connectThrows s).1.errorMsg =
      some "CONNECTION_FAILED_RETRY" ∧
    (startSession StartOutcome.connectThrows s).1.sources = [] ∧
    (startSession StartOutcome.connectThrows s).1.nextStartTime = 0 ∧
    (startSession StartOutcome.connectThrows s).1.inputAudioContext = none ∧
    (startSession StartOutcome.connectThrows s).1.outputAudioContext = none ∧
    (startSession StartOutcome.connectThrows s).1.sessionPromise = none := by
  cases hss : s.isScreenSharing <;> cases hpip : s.pipActive <;>
    cases hcam : s.cameraStream <;>
    simp [startSession, stopSession, stopScreenShare, hss, hpip, hcam]

/-! ## C8 — decode failures are contained, but not invisible -/

/-- C8 counterexample: the claim says that after a failed decode the
timeline cursor is no different than if the failing payload had never
arrived.  The cursor pre-advance `nextStartTimeRef.current = max(cursor,
ctx.currentTime)` (part_000:494) happens *before* the `try` block: a
one-byte payload (odd length, so the `Int16Array` construction throws)
arriving at clock time 5 moves the cursor of `liveState` from 0 to 5. -/
theorem decode_failure_moves_cursor :
    decodeAudioData [0] = none ∧
    liveState.nextStartTime = 0 ∧
    (handleMessage 5 0 { audioData := some [0], interrupted := false }
        liveState).nextStartTime = 5 := by
  refine ⟨rfl, rfl, ?_⟩
  decide

/-- C8 amended: a decode failure is contained — the handler (a total
function, so no exception escapes) leaves the connection state, the active
set, the stopped-source log and the error message exactly as they were,
changing only the cosmetic talking flag and the cursor, which becomes
`max(cursor, now)`; this cursor change is unobservable downstream: for any
later clock reading `n2 ≥ now`, the start time `max(cursor, n2)` that the
scheduler would assign to the next buffer is the same as if the failing
payload had never arrived. -/
theorem decode_failure_local_effects (now : ℚ) (i : ℕ) (b : List ℕ)
    (s : SessionState) (hctx : s.outputAudioContext = some ())
    (hdec : decodeAudioData b = none) :
    handleMessage now i { audioData := some b, interrupted := false } s =
      { s with isAiTalking := true, nextStartTime := max s.nextStartTime now } ∧
    (∀ n2 : ℚ, now ≤ n2 →
      max (handleMessage now i { audioData := some b, interrupted := false }
            s).nextStartTime n2 =
        max s.nextStartTime n2) := by
  have he := handleMessage_audio_fail now i b s hctx hdec
  refine ⟨he, ?_⟩
  intro n2 h2
  rw [he]
  show max (max s.nextStartTime now) n2 = max s.nextStartTime n2
  rw [max_assoc, max_eq_right h2]

/-- C8 amended witness: the one-byte payload at clock time 5, followed by a
clock reading 7, assigns the same next start time as with no failure. -/
theorem decode_failure_local_effects_witness :
    handleMessage 5 0 { audioData := some [0], interrupted := false } liveState =
      { liveState with isAiTalking := true, nextStartTime := max liveState.nextStartTime 5 } ∧
    max (handleMessage 5 0 { audioData := some [0], interrupted := false }
          liveState).nextStartTime 7 =
      max liveState.nextStartTime 7 := by
  have h := decode_failure_local_effects 5 0 [0] liveState rfl rfl
  exact ⟨h.1, h.2 7 (by norm_num)⟩

/-! ## C1 — gapless sequential scheduling -/

/-- An all-zero byte buffer of even length decodes to all-zero samples. -/
theorem bytesToInt16_replicate_zero (n : ℕ) :
    bytesToInt16 (List.replicate (2 * n) 0) = some (List.replicate n 0) := by
  induction n with
  | zero => rfl
  | succ k ih =>
    have h2 : 2 * (k + 1) = 2 * k + 1 + 1 := by ring
    rw [h2, List.replicate_succ, List.replicate_succ, List.replicate_succ]
    simp [bytesToInt16, ih, wrap16]

/-- `decodeAudioData` on an all-zero even-length byte buffer. -/
theorem decodeAudioData_replicate_zero (n : ℕ) :
    decodeAudioData (List.replicate (2 * n) 0) = some (List.replicate n 0) := by
  rw [decodeAudioData, bytesToInt16_replicate_zero]
  rw [Option.map_some']
  rw [List.map_replicate]
  norm_num

/-- C1.  Each successfully decoded inbound buffer is assigned the start time
`max(cursor, now)` read at its own scheduling moment, and the cursor then
advances by exactly that buffer's duration: three buffers of durations
`d1, d2, d3` arriving with no interruption and no clock overtake (the clock
readings `n2, n3` do not exceed the cursor) are scheduled at `t0`,
`t0 + d1` and `t0 + d1 + d2`, where `t0 = max(cursor, n1)` is the first
buffer's start time. -/
theorem onmessage_sequential_scheduling
    (s s1 s2 s3 : SessionState) (n1 n2 n3 : ℚ) (i1 i2 i3 : ℕ)
    (b1 b2 b3 : List ℕ) (l1 l2 l3 : List ℚ) (t0 d1 d2 d3 : ℚ)
    (hctx : s.outputAudioContext = some ())
    (hb1 : decodeAudioData b1 = some l1)
    (hb2 : decodeAudioData b2 = some l2)
    (hb3 : decodeAudioData b3 = some l3)
    (ht0 : t0 = max s.nextStartTime n1)
    (hd1 : d1 = bufferDuration l1)
    (hd2 : d2 = bufferDuration l2)
    (hd3 : d3 = bufferDuration l3)
    (hs1 : s1 = handleMessage n1 i1 { audioData := some b1, interrupted := false } s)
    (hs2 : s2 = handleMessage n2 i2 { audioData := some b2, interrupted := false } s1)
    (hs3 : s3 = handleMessage n3 i3 { audioData := some b3, interrupted := false } s2)
    (hn2 : n2 ≤ t0 + d1) (hn3 : n3 ≤ t0 + d1 + d2) :
    s1.sources = s.sources ++ [{ id := i1, startTime := t0, duration := d1 }] ∧
    s1.nextStartTime = t0 + d1 ∧
    s2.sources = s.sources ++
      [{ id := i1, startTime := t0, duration := d1 },
       { id := i2, startTime := t0 + d1, duration := d2 }] ∧
    s2.nextStartTime = t0 + d1 + d2 ∧
    s3.sources = s.sources ++
      [{ id := i1, startTime := t0, duration := d1 },
       { id := i2, startTime := t0 + d1, duration := d2 },
       { id := i3, startTime := t0 + d1 + d2, duration := d3 }] ∧
    s3.nextStartTime = t0 + d1 + d2 + d3 := by
  subst ht0 hd1 hd2 hd3
  rw [handleMessage_audio_ok n1 i1 b1 l1 s hctx hb1] at hs1
  have hctx1 : s1.outputAudioContext = some () := by rw [hs1]; exact hctx
  have hsrc1 : s1.sources = s.sources ++
      [{ id := i1, startTime := max s.nextStartTime n1, duration := bufferDuration l1 }] := by
    rw [hs1]
  have hnext1 : s1.nextStartTime = max s.nextStartTime n1 + bufferDuration l1 := by rw [hs1]
  rw [handleMessage_audio_ok n2 i2 b2 l2 s1 hctx1 hb2] at hs2
  have hm2 : max s1.nextStartTime n2 = s1.nextStartTime := by
    refine max_eq_left ?_
    rw [hnext1]
    exact hn2
  have hctx2 : s2.outputAudioContext = some () := by rw [hs2]; exact hctx1
  have hsrc2 : s2.sources = s1.sources ++
      [{ id := i2, startTime := s1.nextStartTime, duration := bufferDuration l2 }] := by
    rw [hs2, hm2]
  have hnext2 : s2.nextStartTime = s1.nextStartTime + bufferDuration l2 := by
    rw [hs2, hm2]
  rw [handleMessage_audio_ok n3 i3 b3 l3 s2 hctx2 hb3] at hs3
  have hm3 : max s2.nextStartTime n3 = s2.nextStartTime := by
    refine max_eq_left ?_
    rw [hnext2, hnext1]
    exact hn3
  have hsrc3 : s3.sources = s2.sources ++
      [{ id := i3, startTime := s2.nextStartTime, duration := bufferDuration l3 }] := by
    rw [hs3, hm3]
  have hnext3 : s3.nextStartTime = s2.nextStartTime + bufferDuration l3 := by
    rw [hs3, hm3]
  refine ⟨hsrc1, hnext1, ?_, ?_, ?_, ?_⟩ <;>
    simp [hsrc1, hsrc2, hsrc3, hnext1, hnext2, hnext3]

/-- C1 witness: from `liveState` (cursor 0), three all-zero payloads of
4800, 7200 and 3600 frames — durations 200 ms, 300 ms and 150 ms at 24 kHz —
arriving at clock time 0 are scheduled at `t0 = 0`, `t0 + 200 ms` and
`t0 + 500 ms`. -/
theorem onmessage_sequential_scheduling_witness :
    (handleMessage 0 3 { audioData := some (List.replicate 7200 0), interrupted := false }
      (handleMessage 0 2 { audioData := some (List.replicate 14400 0), interrupted := false }
        (handleMessage 0 1 { audioData := some (List.replicate 9600 0), interrupted := false }
          liveState))).sources =
      [{ id := 1, startTime := 0, duration := 1/5 },
       { id := 2, startTime := 1/5, duration := 3/10 },
       { id := 3, startTime := 1/2, duration := 3/20 }] := by
  have hb1 : decodeAudioData (List.replicate 9600 0) = some (List.replicate 4800 0) := by
    have h := decodeAudioData_replicate_zero 4800
    norm_num at h
    exact h
  have hb2 : decodeAudioData (List.replicate 14400 0) = some (List.replicate 7200 0) := by
    have h := decodeAudioData_replicate_zero 7200
    norm_num at h
    exact h
  have hb3 : decodeAudioData (List.replicate 7200 0) = some (List.replicate 3600 0) := by
    have h := decodeAudioData_replicate_zero 3600
    norm_num at h
    exact h
  have h := onmessage_sequential_scheduling liveState _ _ _ 0 0 0 1 2 3
    (List.replicate 9600 0) (List.replicate 14400 0) (List.replicate 7200 0)
    (List.replicate 4800 0) (List.replicate 7200 0) (List.replicate 3600 0)
    0 (1/5) (3/10) (3/20)
    rfl hb1 hb2 hb3
    (by norm_num [liveState])
    (by norm_num [bufferDuration])
    (by norm_num [bufferDuration])
    (by norm_num [bufferDuration])
    rfl rfl rfl
    (by norm_num) (by norm_num)
  have h5 := h.2.2.2.2.1
  rw [h5]
  norm_num [liveState]

/-! ## C2 — interruption stops everything and re-anchors the timeline -/

/-- One handler invocation at a clock reading `≥ T` keeps every active
source's start time `≥ T`: a newly scheduled source starts at
`max(cursor, now) ≥ now ≥ T`, and the other branches only keep or clear the
set. -/
theorem handleMessage_start_lb (T now : ℚ) (i : ℕ) (m : ServerMessage)
    (s : SessionState) (hnow : T ≤ now)
    (hs : ∀ src ∈ s.sources, T ≤ src.startTime) :
    ∀ src ∈ (handleMessage now i m s).sources, T ≤ src.startTime := by
  obtain ⟨a, inter⟩ := m
  cases inter
  · cases a with
    | none => simpa [handleMessage] using hs
    | some b =>
      cases hctx : s.outputAudioContext with
      | none => simpa [handleMessage, hctx] using hs
      | some u =>
        cases u
        cases hdec : decodeAudioData b with
        | none =>
          rw [handleMessage_audio_fail now i b s hctx hdec]
          simpa using hs
        | some l =>
          intro src hsrc
          rw [handleMessage_audio_ok now i b l s hctx hdec] at hsrc
          rcases List.mem_append.mp hsrc with h | h
          · exact hs src h
          · rw [List.mem_singleton.mp h]
            exact le_trans hnow (le_max_right _ _)
  · cases a with
    | none => simp [handleMessage_interrupted_none]
    | some b =>
      cases hctx : s.outputAudioContext with
      | none => simp [handleMessage_interrupted_noctx now i b s hctx]
      | some u =>
        cases u
        cases hdec : decodeAudioData b with
        | none => simp [handleMessage_interrupted_fail now i b s hctx hdec]
        | some l => simp [handleMessage_interrupted_ok now i b l s hctx hdec]

/-- Every source still active after a run of handler invocations whose clock
readings are all `≥ T`, starting from a state whose active sources all start
`≥ T`, starts `≥ T`. -/
theorem runMessages_start_lb (T : ℚ) (steps : List (ℚ × ℕ × ServerMessage)) :
    ∀ s : SessionState, (∀ src ∈ s.sources, T ≤ src.startTime) →
      (∀ p ∈ steps, T ≤ p.1) →
      ∀ src ∈ (runMessages steps s).sources, T ≤ src.startTime := by
  induction steps with
  | nil =>
    intro s hs _
    simpa [runMessages] using hs
  | cons p rest ih =>
    intro s hs hsteps
    have h1 : ∀ src ∈ (handleMessage p.1 p.2.1 p.2.2 s).sources, T ≤ src.startTime :=
      handleMessage_start_lb T p.1 p.2.1 p.2.2 s (hsteps p (List.mem_cons_self p rest)) hs
    have h2 := ih (handleMessage p.1 p.2.1 p.2.2 s) h1
      (fun q hq => hsteps q (List.mem_cons_of_mem p hq))
    simpa [runMessages] using h2

/-- C2.  Processing a message with `interrupted = true` calls `stop()` on
every source of the active set, leaves the active set empty and resets the
cursor to 0; every buffer scheduled by any later handler invocation whose
clock reading is `≥` the interruption's clock time is assigned a start time
no earlier than that time — the timeline re-anchors to "now" instead of the
old cursor. -/
theorem interrupted_clears_and_reanchors (nowI : ℚ) (idI : ℕ) (msg : ServerMessage)
    (s : SessionState) (hint : msg.interrupted = true) :
    (handleMessage nowI idI msg s).sources = [] ∧
    (handleMessage nowI idI msg s).nextStartTime = 0 ∧
    (∀ src ∈ s.sources, src ∈ (handleMessage nowI idI msg s).stoppedSources) ∧
    (∀ steps : List (ℚ × ℕ × ServerMessage), (∀ p ∈ steps, nowI ≤ p.1) →
      ∀ src ∈ (runMessages steps (handleMessage nowI idI msg s)).sources,
        nowI ≤ src.startTime) := by
  obtain ⟨a, inter⟩ := msg
  cases inter
  · cases hint
  · have hmain : (handleMessage nowI idI { audioData := a, interrupted := true } s).sources
          = [] ∧
        (handleMessage nowI idI { audioData := a, interrupted := true } s).nextStartTime
          = 0 ∧
        ∀ src ∈ s.sources,
          src ∈ (handleMessage nowI idI { audioData := a, interrupted := true }
            s).stoppedSources := by
      cases a with
      | none =>
        rw [handleMessage_interrupted_none]
        refine ⟨rfl, rfl, ?_⟩
        intro src hmem
        exact List.mem_append.mpr (Or.inr hmem)
      | some b =>
        cases hctx : s.outputAudioContext with
        | none =>
          rw [handleMessage_interrupted_noctx nowI idI b s hctx]
          refine ⟨rfl, rfl, ?_⟩
          intro src hmem
          exact List.mem_append.mpr (Or.inr hmem)
        | some u =>
          cases u
          cases hdec : decodeAudioData b with
          | none =>
            rw [handleMessage_interrupted_fail nowI idI b s hctx hdec]
            refine ⟨rfl, rfl, ?_⟩
            intro src hmem
            exact List.mem_append.mpr (Or.inr hmem)
          | some l =>
            rw [handleMessage_interrupted_ok nowI idI b l s hctx hdec]
            refine ⟨rfl, rfl, ?_⟩
            intro src hmem
            exact List.mem_append.mpr (Or.inr (List.mem_append.mpr (Or.inl hmem)))
    refine ⟨hmain.1, hmain.2.1, hmain.2.2, ?_⟩
    intro steps hsteps
    refine runMessages_start_lb nowI steps _ ?_ hsteps
    rw [hmain.1]
    intro src hsrc'
    cases hsrc'

/-- C2 witness: a playing source (id 7) is stopped by a concrete
interruption at clock time 2; the set empties, the cursor resets, and a
payload arriving afterwards at clock time 3 is scheduled at 3, not at the
old cursor. -/
theorem interrupted_clears_and_reanchors_witness :
    (handleMessage 2 9 { audioData := none, interrupted := true }
        liveStateWithSource).sources = [] ∧
    (handleMessage 2 9 { audioData := none, interrupted := true }
        liveStateWithSource).nextStartTime = 0 ∧
    ({ id := 7, startTime := 0, duration := 1 } : PlaybackSource) ∈
      (handleMessage 2 9 { audioData := none, interrupted := true }
        liveStateWithSource).stoppedSources ∧
    (2 : ℚ) ≤ (3 : ℚ) := by
  have h := interrupted_clears_and_reanchors 2 9
    { audioData := none, interrupted := true } liveStateWithSource rfl
  have hdec : decodeAudioData [0, 0] = some [0] := decodeAudioData_replicate_zero 1
  have hctxA : (handleMessage 2 9 { audioData := none, interrupted := true }
      liveStateWithSource).outputAudioContext = some () := by
    rw [handleMessage_interrupted_none]
    rfl
  have hmem : ({ id := 8, startTime := 3, duration := 1/24000 } : PlaybackSource) ∈
      (runMessages [(3, 8, { audioData := some [0, 0], interrupted := false })]
        (handleMessage 2 9 { audioData := none, interrupted := true }
          liveStateWithSource)).sources := by
    show ({ id := 8, startTime := 3, duration := 1/24000 } : PlaybackSource) ∈
      (handleMessage 3 8 { audioData := some [0, 0], interrupted := false }
        (handleMessage 2 9 { audioData := none, interrupted := true }
          liveStateWithSource)).sources
    rw [handleMessage_audio_ok 3 8 [0, 0] [0] _ hctxA hdec]
    rw [h.1, h.2.1]
    rw [show max (0 : ℚ) 3 = 3 from max_eq_right (by norm_num)]
    norm_num [bufferDuration]
  refine ⟨h.1, h.2.1, ?_, ?_⟩
  · refine h.2.2.1 { id := 7, startTime := 0, duration := 1 } ?_
    rw [show liveStateWithSource.sources =
      [{ id := 7, startTime := 0, duration := 1 }] from rfl]
    exact List.mem_singleton.mpr rfl
  · exact h.2.2.2 [(3, 8, { audioData := some [0, 0], interrupted := false })]
      (by
        intro p hp
        rw [List.mem_singleton.mp hp]
        norm_num)
      { id := 8, startTime := 3, duration := 1/24000 } hmem

/-! ## C10 — a message carrying both audio and the interrupted flag -/

/-- C10.  Within a single `onmessage` invocation the payload branch runs
before the interruption branch: the payload is decoded, scheduled at
`max(cursor, now)` and added to the active set, and then the interruption
stops and removes it — afterwards the active set is empty and the cursor is
0, and the scheduler-visible end state (active set, cursor, talking flag,
connection state) is the same as for an interruption-only message. -/
theorem audio_and_interrupt_same_message (now : ℚ) (i : ℕ) (b : List ℕ) (l : List ℚ)
    (s : SessionState) (hctx : s.outputAudioContext = some ())
    (hdec : decodeAudioData b = some l) :
    (handleMessage now i { audioData := some b, interrupted := true } s).sources = [] ∧
    (handleMessage now i { audioData := some b, interrupted := true } s).nextStartTime = 0 ∧
    ({ id := i, startTime := max s.nextStartTime now, duration := bufferDuration l } :
        PlaybackSource) ∈
      (handleMessage now i { audioData := some b, interrupted := true } s).stoppedSources ∧
    (handleMessage now i { audioData := some b, interrupted := true } s).sources =
      (handleMessage now i { audioData := none, interrupted := true } s).sources ∧
    (handleMessage now i { audioData := some b, interrupted := true } s).nextStartTime =
      (handleMessage now i { audioData := none, interrupted := true } s).nextStartTime ∧
    (handleMessage now i { audioData := some b, interrupted := true } s).isAiTalking =
      (handleMessage now i { audioData := none, interrupted := true } s).isAiTalking ∧
    (handleMessage now i { audioData := some b, interrupted := true } s).connectionState =
      (handleMessage now i { audioData := none, interrupted := true } s).connectionState := by
  simp [handleMessage, hctx, hdec, List.mem_append]

/-- C10 witness: a concrete two-byte payload together with the interrupted
flag in one message. -/
theorem audio_and_interrupt_same_message_witness :
    (handleMessage 1 4 { audioData := some [0, 0], interrupted := true }
        liveState).sources = [] ∧
    (handleMessage 1 4 { audioData := some [0, 0], interrupted := true }
        liveState).nextStartTime = 0 ∧
    ({ id := 4, startTime := max liveState.nextStartTime 1,
       duration := bufferDuration [(0 : ℚ)] } : PlaybackSource) ∈
      (handleMessage 1 4 { audioData := some [0, 0], interrupted := true }
        liveState).stoppedSources := by
  have h := audio_and_interrupt_same_message 1 4 [0, 0] [0] liveState rfl
    (decodeAudioData_replicate_zero 1)
  exact ⟨h.1, h.2.1, h.2.2.1⟩

/-! ## C4 — the PCM round trip -/

/-- The wrapped value always lies in the signed 16-bit range. -/
theorem wrap16_range (n : ℤ) : -32768 ≤ wrap16 n ∧ wrap16 n < 32768 := by
  simp only [wrap16]
  split <;> omega

/-- Wrapping is the identity on values already in the signed 16-bit range. -/
theorem wrap16_eq_of_range (n : ℤ) (h1 : -32768 ≤ n) (h2 : n < 32768) :
    wrap16 n = n := by
  simp only [wrap16]
  split <;> omega

/-- Wrapping only depends on the value mod 2^16. -/
theorem wrap16_emod (n : ℤ) : wrap16 (n % 65536) = wrap16 n := by
  simp only [wrap16, Int.emod_emod_of_dvd n dvd_rfl]

/-- Truncation toward zero is within distance 1 of its argument. -/
theorem jsTrunc_close (q : ℚ) : |q - (jsTrunc q : ℚ)| < 1 := by
  simp only [jsTrunc]
  split
  · rw [abs_lt]
    have h1 := Int.floor_le q
    have h2 := Int.lt_floor_add_one q
    constructor <;> linarith
  · rw [abs_lt]
    have h1 := Int.le_ceil q
    have h2 := Int.ceil_lt_add_one q
    constructor <;> linarith

/-- Truncation toward zero of a value in `[-32768, 32768)` stays in the
signed 16-bit range. -/
theorem jsTrunc_range (q : ℚ) (h1 : -32768 ≤ q) (h2 : q < 32768) :
    -32768 ≤ jsTrunc q ∧ jsTrunc q < 32768 := by
  simp only [jsTrunc]
  split
  · rename_i h
    constructor
    · have h0 : (0 : ℤ) ≤ ⌊q⌋ := Int.floor_nonneg.mpr h
      omega
    · rw [Int.floor_lt]
      exact_mod_cast h2
  · rename_i h
    push_neg at h
    constructor
    · have hle := Int.le_ceil q
      have : (-32768 : ℚ) ≤ (⌈q⌉ : ℚ) := le_trans h1 hle
      exact_mod_cast this
    · have hc : ⌈q⌉ ≤ 0 := Int.ceil_le.mpr (by exact_mod_cast le_of_lt h)
      omega

/-- In range, `ToInt16` is plain truncation — no wrapping occurs. -/
theorem toInt16_eq_of_range (q : ℚ) (h1 : -32768 ≤ q) (h2 : q < 32768) :
    toInt16 q = jsTrunc q := by
  have h := jsTrunc_range q h1 h2
  exact wrap16_eq_of_range _ h.1 h.2

/-- Every sample produced by `createBlob` lies in the signed 16-bit range. -/
theorem createBlobSamples_range (data : List ℚ) :
    ∀ n ∈ createBlobSamples data, -32768 ≤ n ∧ n < 32768 := by
  intro n hn
  simp only [createBlobSamples, List.mem_map] at hn
  obtain ⟨x, _, rfl⟩ := hn
  exact wrap16_range _

/-- Serialising in-range 16-bit samples to bytes and reading them back as an
`Int16Array` is the identity. -/
theorem bytesToInt16_int16ToBytes (l : List ℤ)
    (h : ∀ n ∈ l, -32768 ≤ n ∧ n < 32768) :
    bytesToInt16 (int16ToBytes l) = some l := by
  induction l with
  | nil => rfl
  | cons n rest ih =>
    have hn := h n (List.mem_cons_self n rest)
    have hrest := ih (fun m hm => h m (List.mem_cons_of_mem n hm))
    have hw : ((n % 65536).toNat % 256 + 256 * ((n % 65536).toNat / 256) : ℕ) =
        (n % 65536).toNat := Nat.mod_add_div _ _
    have hcast : (((n % 65536).toNat : ℤ)) = n % 65536 :=
      Int.toNat_of_nonneg (Int.emod_nonneg n (by norm_num))
    simp only [int16ToBytes, bytesToInt16, hrest, Option.map_some']
    rw [hw, hcast, wrap16_emod, wrap16_eq_of_range n hn.1 hn.2]

/-- C4 counterexample: the claim asserts the encode/decode round trip is
within ±1/32768 even at the full-scale boundary +1.0, on the strength of
the spec's "linear scaling and clipping".  `createBlob` (part_000:53) does
not clip: storing `1.0 * 32768 = 32768` into an `Int16Array` wraps to
−32768, so the sample +1.0 decodes back as −1.0 — an error of 2. -/
theorem pcm_roundtrip_full_scale_wraps :
    decodeAudioData (createBlobBytes [1]) = some [-1] ∧
    ¬ |(1 : ℚ) - (-1 : ℚ)| ≤ 1 / 32768 := by
  have hfloor : ⌊(32768 : ℚ)⌋ = 32768 := by
    rw [show (32768 : ℚ) = ((32768 : ℤ) : ℚ) by norm_num]
    exact Int.floor_intCast _
  have hsamp : createBlobSamples [1] = [-32768] := by
    simp only [createBlobSamples, List.map_cons, List.map_nil, toInt16, jsTrunc]
    rw [if_pos (by norm_num : (0 : ℚ) ≤ 1 * 32768)]
    rw [show (1 : ℚ) * 32768 = 32768 by norm_num, hfloor]
    decide
  have hbytes : createBlobBytes [1] = [0, 128] := by
    rw [createBlobBytes, hsamp]
    decide
  constructor
  · rw [hbytes, decodeAudioData,
      show bytesToInt16 [0, 128] = some [-32768] from by decide]
    simp only [Option.map_some', List.map_cons, List.map_nil]
    norm_num
  · norm_num

/-- C4 amended: for samples strictly inside the representable range
`[-1, 1)` — which includes the boundary −1.0 and everything up to but not
including +1.0 — the encode/decode round trip reproduces each sample within
quantization error, strictly less than 1/32768; at exactly +1.0 the
conversion wraps instead of clipping (see the counterexample). -/
theorem pcm_roundtrip_within_quantization (data : List ℚ)
    (h : ∀ x ∈ data, -1 ≤ x ∧ x < 1) :
    decodeAudioData (createBlobBytes data) =
      some (data.map (fun x => (toInt16 (x * 32768) : ℚ) / 32768)) ∧
    ∀ x ∈ data, |x - (toInt16 (x * 32768) : ℚ) / 32768| < 1 / 32768 := by
  constructor
  · rw [createBlobBytes, decodeAudioData,
      bytesToInt16_int16ToBytes _ (createBlobSamples_range data), Option.map_some']
    rw [createBlobSamples, List.map_map]
    rfl
  · intro x hx
    obtain ⟨hx1, hx2⟩ := h x hx
    have hq1 : -32768 ≤ x * 32768 := by linarith
    have hq2 : x * 32768 < 32768 := by linarith
    rw [toInt16_eq_of_range (x * 32768) hq1 hq2]
    have hclose := jsTrunc_close (x * 32768)
    have heq : x - (jsTrunc (x * 32768) : ℚ) / 32768 =
        (x * 32768 - (jsTrunc (x * 32768) : ℚ)) / 32768 := by
      field_simp
    rw [heq, abs_div, abs_of_pos (by norm_num : (0 : ℚ) < 32768)]
    exact div_lt_div_of_pos_right hclose (by norm_num)

/-- C4 amended witness: a concrete sample list with entries at and near the
boundaries, round-tripped within quantization error. -/
theorem pcm_roundtrip_within_quantization_witness :
    decodeAudioData (createBlobBytes [1/2, -1, 0]) =
      some (List.map (fun x => (toInt16 (x * 32768) : ℚ) / 32768) [1/2, -1, 0]) ∧
    |(1/2 : ℚ) - (toInt16 ((1/2 : ℚ) * 32768) : ℚ) / 32768| < 1 / 32768 := by
  have h := pcm_roundtrip_within_quantization [1/2, -1, 0]
    (by intro x hx; fin_cases hx <;> norm_num)
  exact ⟨h.1, h.2 (1/2) (by simp)⟩

end Rinu
